import Mathlib

/-!
Verification development for the compliance document discovery and extraction
pipeline of this repository (`src/services/scrapingService.ts`, together with
the duplicated fast variant and its `openaiService` retry helper found in
`src/unnamed/part_001`).

Modelling conventions:
* JavaScript strings are modelled as `List Char` (`Str`); `includes`,
  `indexOf`, `substring`, `trim`, `length`, `+` are translated to list
  operations with matching semantics.
* Browser navigation plus DOM evaluation, and the external LLM call, are
  deterministic environment functions returning `Except` (an `error` models a
  thrown exception: a navigation timeout, or an extraction-service failure
  after the retry loop gave up).
* Page handles are accounted for explicitly: each pipeline step reports how
  many pages it opened (`context.newPage()`) and how many it closed
  (`page.close()`).
-/

/-- JavaScript strings, modelled as lists of characters. -/
abbrev Str := List Char

/-- Does `hay` start with `needle`?  Helper for substring search. -/
def startsWithL : Str → Str → Bool
  | _, [] => true
  | [], _ :: _ => false
  | c :: cs, d :: ds => c == d && startsWithL cs ds

/-- JavaScript `hay.includes(needle)`: substring containment. -/
def includesL : Str → Str → Bool
  | [], needle => startsWithL [] needle
  | c :: cs, needle => startsWithL (c :: cs) needle || includesL cs needle

/-- JavaScript `hay.indexOf(needle)`: index of the first occurrence
(`none` models the `-1` sentinel). -/
def indexOfL : Str → Str → Option Nat
  | [], needle => if startsWithL [] needle then some 0 else none
  | c :: cs, needle =>
    if startsWithL (c :: cs) needle then some 0
    else (indexOfL cs needle).map (· + 1)

/-- Whitespace test used by `trim` (the whitespace characters relevant to
this code base). -/
def isWS (c : Char) : Bool := c == ' ' || c == '\n' || c == '\t' || c == '\r'

/-- JavaScript `s.trim()`. -/
def trimL (s : Str) : Str := ((s.dropWhile isWS).reverse.dropWhile isWS).reverse

/-- JavaScript `s.substring(a, b)`: swaps the bounds when `a > b` and clamps
to the string length. -/
def jsSubstring (s : Str) (a b : Nat) : Str :=
  (s.drop (min a b)).take (max a b - min a b)

/-- JavaScript `x || y` on nullable object values (`null` modelled as
`none`; objects are always truthy). -/
def jsOr {α : Type} (x y : Option α) : Option α :=
  match x with
  | some v => some v
  | none => y

/-- An anchor as produced by the DOM evaluation of `findComplianceLinks`
(scrapingService.ts lines 280-287): `text` is `textContent` trimmed and
lowercased, `href` is the absolute URL resolved by the browser engine. -/
structure Link where
  text : Str
  href : Str
  isFooter : Bool
  isHeader : Bool
  deriving DecidableEq

/-- The `ComplianceLinks` record (scrapingService.ts lines 26-30). -/
structure ComplianceLinks where
  termsLink : Option Link
  privacyLink : Option Link
  cookieLink : Option Link
  deriving DecidableEq

/-- The `ScrapingResult` record (scrapingService.ts lines 13-17); `null`
fields are modelled as `none`. -/
structure ScrapingResult where
  termsOfService : Option Str
  privacyPolicy : Option Str
  cookiePolicy : Option Str
  deriving DecidableEq

/-- Page-handle accounting of one pipeline step: how many pages the step
opened with `context.newPage()` and how many it closed with `page.close()`. -/
structure PageLedger where
  opened : Nat
  closed : Nat
  deriving DecidableEq

/-- The three compliance-document categories (verification helper). -/
inductive Category
  | terms
  | privacy
  | cookie
  deriving DecidableEq

/-- Projection of a `ComplianceLinks` record at a category (verification
helper; the source stores the three slots as separate record fields). -/
def ComplianceLinks.slot (s : ComplianceLinks) : Category → Option Link
  | Category.terms => s.termsLink
  | Category.privacy => s.privacyLink
  | Category.cookie => s.cookieLink

namespace ScrapingService

/-- Terms keyword predicate of `findComplianceLinks`
(scrapingService.ts lines 290-302). -/
def termsMatch (link : Link) : Bool :=
  includesL link.text "terms".data ||
  includesL link.text "conditions".data ||
  includesL link.text "tos".data ||
  includesL link.text "mentions légales".data ||
  includesL link.text "conditions générales".data ||
  includesL link.text "cgv".data ||
  includesL link.text "cgu".data ||
  includesL link.href "terms".data ||
  includesL link.href "conditions".data ||
  includesL link.href "mentions-legales".data ||
  includesL link.href "legal".data

/-- Privacy keyword predicate of `findComplianceLinks`
(scrapingService.ts lines 304-313). -/
def privacyMatch (link : Link) : Bool :=
  includesL link.text "privacy".data ||
  includesL link.text "vie privée".data ||
  includesL link.text "données personnelles".data ||
  includesL link.text "confidentialité".data ||
  includesL link.href "privacy".data ||
  includesL link.href "confidentialite".data ||
  includesL link.href "donnees-personnelles".data ||
  includesL link.href "rgpd".data

/-- Cookie keyword predicate of `findComplianceLinks`
(scrapingService.ts lines 315-320). -/
def cookieMatch (link : Link) : Bool :=
  includesL link.text "cookie".data ||
  includesL link.text "cookies".data ||
  includesL link.href "cookie".data ||
  includesL link.href "traceurs".data

/-- The keyword predicate of a category (verification helper bundling the
three fixed keyword sets). -/
def catMatch : Category → Link → Bool
  | Category.terms => termsMatch
  | Category.privacy => privacyMatch
  | Category.cookie => cookieMatch

/-- `findComplianceLinks` (scrapingService.ts lines 279-323): for each
category, the first anchor in DOM order whose text or href contains a
keyword (`Array.prototype.find`, with `|| null` modelled by `Option`). -/
def findComplianceLinks (links : List Link) : ComplianceLinks :=
  ⟨links.find? termsMatch, links.find? privacyMatch, links.find? cookieMatch⟩

/-- Terms keyword predicate of `findFooterLinks`
(scrapingService.ts lines 346-353). -/
def footerTermsMatch (link : Link) : Bool :=
  includesL link.text "terms".data ||
  includesL link.text "conditions".data ||
  includesL link.text "mentions légales".data ||
  includesL link.text "cgu".data ||
  includesL link.href "legal".data ||
  includesL link.href "mentions".data

/-- Privacy keyword predicate of `findFooterLinks`
(scrapingService.ts lines 355-361). -/
def footerPrivacyMatch (link : Link) : Bool :=
  includesL link.text "privacy".data ||
  includesL link.text "confidentialité".data ||
  includesL link.text "données".data ||
  includesL link.href "privacy".data ||
  includesL link.href "donnees".data

/-- Cookie keyword predicate of `findFooterLinks`
(scrapingService.ts lines 363-366). -/
def footerCookieMatch (link : Link) : Bool :=
  includesL link.text "cookie".data ||
  includesL link.href "cookie".data

/-- `findFooterLinks` (scrapingService.ts lines 328-369).  The DOM
evaluation restricts to anchors inside a footer-like container and returns
`[]` when no such container exists; the anchor list passed here is the
result of that evaluation. -/
def findFooterLinks (footerLinks : List Link) : ComplianceLinks :=
  ⟨footerLinks.find? footerTermsMatch,
   footerLinks.find? footerPrivacyMatch,
   footerLinks.find? footerCookieMatch⟩

/-- Candidate filter of `findMenuLinks` (scrapingService.ts lines 376-390):
anchors whose text looks like an about/legal/help page. -/
def menuTextMatch (link : Link) : Bool :=
  includesL link.text "about".data ||
  includesL link.text "à propos".data ||
  includesL link.text "legal".data ||
  includesL link.text "légal".data ||
  includesL link.text "juridique".data ||
  includesL link.text "aide".data ||
  includesL link.text "help".data

/-- Terms keyword predicate used on a secondary page
(scrapingService.ts lines 411-416). -/
def menuTermsMatch (link : Link) : Bool :=
  includesL link.text "terms".data ||
  includesL link.text "conditions".data ||
  includesL link.text "mentions légales".data ||
  includesL link.href "legal".data

/-- Privacy keyword predicate used on a secondary page
(scrapingService.ts lines 420-424). -/
def menuPrivacyMatch (link : Link) : Bool :=
  includesL link.text "privacy".data ||
  includesL link.text "confidentialité".data ||
  includesL link.href "rgpd".data

/-- Cookie keyword predicate used on a secondary page
(scrapingService.ts lines 428-431). -/
def menuCookieMatch (link : Link) : Bool :=
  includesL link.text "cookie".data ||
  includesL link.href "cookie".data

/-- The three mutable locals of `findMenuLinks`
(`termsLink`, `privacyLink`, `cookieLink`; lines 393-395). -/
abbrev MenuState := Option Link × Option Link × Option Link

/-- One loop iteration's updates (scrapingService.ts lines 410-432): each
still-unresolved slot is filled from the secondary page's anchors. -/
def menuUpdate (s : MenuState) (subPageLinks : List Link) : MenuState :=
  ((match s.1 with
    | some x => some x
    | none => subPageLinks.find? menuTermsMatch),
   (match s.2.1 with
    | some x => some x
    | none => subPageLinks.find? menuPrivacyMatch),
   (match s.2.2 with
    | some x => some x
    | none => subPageLinks.find? menuCookieMatch))

/-- The loop's break condition `termsLink && privacyLink && cookieLink`
(scrapingService.ts line 437). -/
def allResolved (s : MenuState) : Bool :=
  s.1.isSome && s.2.1.isSome && s.2.2.isSome

/-- The visiting loop of `findMenuLinks` (scrapingService.ts lines 398-441).
`fetch u` models `newPage()` + `goto(u)` + the anchors evaluation on the
secondary page; `none` models a thrown navigation error, which the `catch`
swallows before the loop continues.  Returns the visited hrefs (in order)
together with the final state; visiting stops right after the iteration that
resolves all three categories. -/
def menuVisit (fetch : Str → Option (List Link)) :
    List Link → MenuState → List Str × MenuState
  | [], s => ([], s)
  | l :: rest, s =>
    match fetch l.href with
    | none =>
      (l.href :: (menuVisit fetch rest s).1, (menuVisit fetch rest s).2)
    | some subPageLinks =>
      if allResolved (menuUpdate s subPageLinks) then
        ([l.href], menuUpdate s subPageLinks)
      else
        (l.href :: (menuVisit fetch rest (menuUpdate s subPageLinks)).1,
         (menuVisit fetch rest (menuUpdate s subPageLinks)).2)

/-- Reference fold for stating properties of `menuVisit`: the same per-page
updates, but without the early break. -/
def menuScan (fetch : Str → Option (List Link)) :
    List Link → MenuState → MenuState
  | [], s => s
  | l :: rest, s =>
    match fetch l.href with
    | none => menuScan fetch rest s
    | some subPageLinks => menuScan fetch rest (menuUpdate s subPageLinks)

/-- `findMenuLinks` (scrapingService.ts lines 374-444): filter the root
page's anchors down to about/legal/help candidates, visit at most the first
three (`menuLinks.slice(0, 3)`), and classify each visited page's anchors.
Also returns the list of visited hrefs. -/
def findMenuLinks (fetch : Str → Option (List Link)) (anchors : List Link) :
    ComplianceLinks × List Str :=
  let menuLinks := anchors.filter menuTextMatch
  let r := menuVisit fetch (menuLinks.take 3) (none, none, none)
  (⟨r.2.1, r.2.2.1, r.2.2.2⟩, r.1)

/-- Page-handle accounting of `findMenuLinks`: one page is opened per
visited candidate, and `subPage.close()` (line 434) runs only when
navigation and evaluation succeeded. -/
def menuLedger (fetch : Str → Option (List Link)) (anchors : List Link) :
    PageLedger :=
  ⟨((findMenuLinks fetch anchors).2).length,
   (((findMenuLinks fetch anchors).2).filter (fun u => (fetch u).isSome)).length⟩

/-- The environment a pipeline run operates in.  `rootAnchors` and
`footerAnchors` are the anchors of the already loaded root page (all of
them, resp. only those inside a footer-like container, `[]` if none);
`fetch` drives the secondary-page visits of `findMenuLinks`; `hasKey`
models `OPENAI_API_KEY` being set; `navContent u` models
`context.newPage()` + `page.goto(u, navigationOptions)` + the
consent-dismissal clicks + the cleaned-text DOM evaluation of the document
page, with `error msg` a thrown navigation/evaluation error; `llm sys user`
models `callOpenAIWithRetry` on a system/user message pair, with
`error msg` an exception escaping the retry loop (rate limit persisting
past the retry budget, or any other error rethrown immediately).
Navigation policies (`waitUntil`, timeouts, waits) only influence how the
real browser produces the text and are absorbed into `navContent`. -/
structure ScrapeEnv where
  rootAnchors : List Link
  footerAnchors : List Link
  fetch : Str → Option (List Link)
  hasKey : Bool
  navContent : Str → Except Str Str
  llm : Str → Str → Except Str Str

/-- Content truncation applied before each extraction call
(scrapingService.ts lines 559-561 and 743-745): text beyond the 80,000
character cap is cut and an explicit marker is appended. -/
def truncateContent (pageContent : Str) : Str :=
  if pageContent.length > 80000 then pageContent.take 80000 ++ "...[truncated]".data
  else pageContent

/-- The fixed truncation marker appended by `truncateContent`. -/
def truncationMarker : Str := "...[truncated]".data

/-- The base exponential backoff of `callOpenAIWithRetry`
(scrapingService.ts lines 66-92).  `tokenErr = none` is an ordinary rate
limit: the wait is `Math.pow(2, retryCount) * 1000` with no cap.  For a
token-type rate limit the wait is raised to the API-suggested seconds plus
a 5s buffer (modelled in milliseconds), or to at least 30s when no
suggestion is present. -/
def backoffTime (retryCount : Nat) (tokenErr : Option (Option Nat)) : Nat :=
  match tokenErr with
  | none => 2 ^ retryCount * 1000
  | some (some suggestedWaitMs) => max (2 ^ retryCount * 1000) (suggestedWaitMs + 5000)
  | some none => max (2 ^ retryCount * 1000) 30000

/-- System prompt of `scrapePageWithOpenAI` (lines 598-602). -/
def extractSystemPrompt (documentType : Str) : Str :=
  "You are a specialized content extractor for legal documents. Your task is to extract the ".data ++
  documentType ++
  " content from text. Be thorough and extract only relevant content.".data

/-- The privasee.io special-case prompt fragment (lines 578-583). -/
def enrichedPromptFor (url documentType : Str) : Str :=
  if includesL url "privasee.io".data then
    "This is text from a page on Privasee.io, which is a privacy compliance platform. \nLook carefully for any content related to ".data ++
    documentType ++ ".\n".data
  else []

/-- User prompt of `scrapePageWithOpenAI` (lines 586-593). -/
def extractPrompt (documentType url truncatedContent : Str) : Str :=
  "Extract the complete content of the ".data ++ documentType ++
  " from this text. \nOnly extract the actual policy text, not navigation, headers, footers, or other website elements.\n".data ++
  enrichedPromptFor url documentType ++
  "\nIf you absolutely cannot find any content related to ".data ++ documentType ++
  ", respond with \"No ".data ++ documentType ++
  " found on this page.\"\nPreserve the formatting and structure of the policy as much as possible.\n\nText content:\n".data ++
  truncatedContent

/-- System prompt of `scrapePageForMultiplePolicies` (lines 787-796). -/
def combinedSystemPrompt : Str :=
  "You are an expert at extracting legal policy content from webpage text. Your job is to find and extract the complete text of privacy and cookie policies.".data

/-- User prompt of `scrapePageForMultiplePolicies` (lines 762-782). -/
def combinedPrompt (truncatedContent : Str) : Str :=
  "This is the text content from a webpage that contains a privacy policy and possibly a cookie policy.\n\nYour task is to extract:\n1. The complete privacy policy text\n2. The complete cookie policy text (if present)\n\nImportant guidelines:\n- Focus on identifying and extracting just the policy text\n- Separate the privacy policy from the cookie policy\n- If the cookie policy is part of the privacy policy, extract the cookie-related sections separately\n\nFormat your response using plain text markers as follows:\n\nPRIVACY POLICY:\n[Insert the complete privacy policy text here]\n\nCOOKIE POLICY:\n[Insert the complete cookie policy text here OR \"No dedicated cookie policy found\"]\n\nText content:\n".data ++
  truncatedContent

/-- Shared system prompt of both cookie-section extraction calls
(lines 850-854 and 920-924). -/
def cookieExtraSystemPrompt : Str :=
  "Extract only cookie-related information from text.".data

/-- User prompt of the secondary cookie extraction inside
`scrapePageForMultiplePolicies` (lines 845-847). -/
def cookieSectionsPrompt (shortPrivacy : Str) : Str :=
  "Find ONLY the sections about cookies, tracking technologies, or similar technologies in this privacy policy. If there are no cookie sections, respond with \"No cookie information found\".\n\n".data ++
  shortPrivacy

/-- User prompt of `extractCookiePolicyFromPrivacyPolicy` (lines 913-915). -/
def cookieFromPrivacyPrompt (truncatedPolicy : Str) : Str :=
  "Find and extract ONLY the sections about cookies, tracking technologies, or similar technologies in this privacy policy. If there are no cookie sections, respond with \"No cookie information found\".\n\n".data ++
  truncatedPolicy

/-- Failure string of `scrapePageWithOpenAI` for a thrown error
(line 632). -/
def scrapeFailMsg (documentType url msg : Str) : Str :=
  "Failed to scrape ".data ++ documentType ++ " content from ".data ++ url ++
  ": ".data ++ msg

/-- Failure string of `scrapePageWithOpenAI` for a missing API key
(line 453). -/
def noKeyMsg (documentType : Str) : Str :=
  "Failed to scrape ".data ++ documentType ++
  " content: OpenAI API key not found. Please add OPENAI_API_KEY to your .env file.".data

/-- Privacy half of the failure pair of `scrapePageForMultiplePolicies`
(line 888). -/
def privacyFailMsg (url msg : Str) : Str :=
  "Failed to extract privacy policy from ".data ++ url ++ ": ".data ++ msg

/-- Cookie half of the failure pair of `scrapePageForMultiplePolicies`
(line 889). -/
def cookieFailMsg (url msg : Str) : Str :=
  "Failed to extract cookie policy from ".data ++ url ++ ": ".data ++ msg

/-- Everything `scrapePageWithOpenAI` does after the page has been closed
(lines 558-632): truncate, call the extraction service, trim the response;
a thrown extraction error is caught and converted to the failure string. -/
def openAIBody (env : ScrapeEnv) (url documentType pageContent : Str) : Str :=
  match env.llm (extractSystemPrompt documentType)
      (extractPrompt documentType url (truncateContent pageContent)) with
  | Except.error msg => scrapeFailMsg documentType url msg
  | Except.ok content => trimL content

/-- `scrapePageWithOpenAI` (scrapingService.ts lines 449-634), with its
page-handle ledger.  Without an API key it returns before opening a page;
`newPage()` opens one page; a navigation/evaluation error is caught and
converted to the failure string with the page left open (the `catch` at
line 624 does not close it); on the successful navigation path the page is
closed at line 556 before the extraction call. -/
def scrapePageWithOpenAI (env : ScrapeEnv) (url documentType : Str) :
    Str × PageLedger :=
  if env.hasKey = false then (noKeyMsg documentType, ⟨0, 0⟩)
  else
    match env.navContent url with
    | Except.error msg => (scrapeFailMsg documentType url msg, ⟨1, 0⟩)
    | Except.ok pageContent => (openAIBody env url documentType pageContent, ⟨1, 1⟩)

/-- The literal privacy marker (line 808). -/
def privacyMarker : Str := "PRIVACY POLICY:".data

/-- The literal cookie marker (line 809). -/
def cookieMarker : Str := "COOKIE POLICY:".data

/-- Default privacy sentinel (line 814). -/
def defaultPrivacy : Str := "No privacy policy found on this page.".data

/-- Default cookie sentinel (line 815). -/
def defaultCookie : Str := "No cookie policy found on this page.".data

/-- Marker parse of the combined-policy splitter
(scrapingService.ts lines 807-831), translated branch by branch from the
`if`/`else if` chain on `privacyStart`/`cookieStart`. -/
def splitPolicies (content : Str) : Str × Str :=
  match indexOfL content privacyMarker, indexOfL content cookieMarker with
  | some privacyStart, some cookieStart =>
    if privacyStart < cookieStart then
      (trimL (jsSubstring content (privacyStart + privacyMarker.length) cookieStart),
       trimL (content.drop (cookieStart + cookieMarker.length)))
    else if cookieStart < privacyStart then
      (trimL (content.drop (privacyStart + privacyMarker.length)),
       trimL (jsSubstring content (cookieStart + cookieMarker.length) privacyStart))
    else (defaultPrivacy, defaultCookie)
  | some privacyStart, none =>
    (trimL (content.drop (privacyStart + privacyMarker.length)), defaultCookie)
  | none, some cookieStart =>
    (defaultPrivacy, trimL (content.drop (cookieStart + cookieMarker.length)))
  | none, none => (defaultPrivacy, defaultCookie)

/-- Everything `scrapePageForMultiplePolicies` does after the page has
been closed (lines 742-891): truncate, call the extraction service, split
on the markers, and when the cookie half contains a not-found sentinel run
the narrower cookie-section extraction over the privacy half, substituting
its result unless it reports no information.  Thrown extraction errors are
caught by the surrounding `catch` and become the failure pair. -/
def multiPoliciesBody (env : ScrapeEnv) (url pageContent : Str) : Str × Str :=
  match env.llm combinedSystemPrompt (combinedPrompt (truncateContent pageContent)) with
  | Except.error msg => (privacyFailMsg url msg, cookieFailMsg url msg)
  | Except.ok content =>
    let pc := splitPolicies content
    if includesL pc.2 "No dedicated cookie policy found".data ||
       includesL pc.2 "No cookie policy found".data then
      match env.llm cookieExtraSystemPrompt
          (cookieSectionsPrompt
            (if pc.1.length > 20000 then pc.1.take 20000 ++ "...[truncated]".data
             else pc.1)) with
      | Except.error msg => (privacyFailMsg url msg, cookieFailMsg url msg)
      | Except.ok c2 =>
        if includesL (trimL c2) "No cookie information found".data then (pc.1, pc.2)
        else (pc.1, trimL c2)
    else (pc.1, pc.2)

/-- `scrapePageForMultiplePolicies` (scrapingService.ts lines 639-892),
with its page-handle ledger.  The page is opened before the `try`; a
navigation/evaluation error leaves it open (the `catch` at line 879 does
not close it); on the successful navigation path it is closed at line 740
before any extraction call. -/
def scrapePageForMultiplePolicies (env : ScrapeEnv) (url : Str) :
    (Str × Str) × PageLedger :=
  match env.navContent url with
  | Except.error msg => ((privacyFailMsg url msg, cookieFailMsg url msg), ⟨1, 0⟩)
  | Except.ok pageContent => (multiPoliciesBody env url pageContent, ⟨1, 1⟩)

/-- `extractCookiePolicyFromPrivacyPolicy` (scrapingService.ts lines
897-949).  JavaScript `!privacyPolicyText` is true both for `null` and for
the empty string. -/
def extractCookiePolicyFromPrivacyPolicy (env : ScrapeEnv)
    (privacyPolicyText : Option Str) : Str :=
  match privacyPolicyText with
  | none => "No privacy policy was found from which to extract cookie information.".data
  | some t =>
    if t.isEmpty then
      "No privacy policy was found from which to extract cookie information.".data
    else if env.hasKey = false then
      "Failed to extract cookie policy: OpenAI API key not found.".data
    else
      match env.llm cookieExtraSystemPrompt
          (cookieFromPrivacyPrompt
            (if t.length > 25000 then t.take 25000 ++ "...[truncated]".data else t)) with
      | Except.error msg =>
        "Failed to extract cookie policy information: ".data ++ msg
      | Except.ok content => trimL content

/-- Footer-pass gate (scrapingService.ts line 205): run the footer pass
iff some category is still unresolved after the main pass. -/
def footerGate (mainLinks : ComplianceLinks) : Bool :=
  mainLinks.termsLink.isNone || mainLinks.privacyLink.isNone ||
  mainLinks.cookieLink.isNone

/-- Menu-pass gate (scrapingService.ts lines 211-213): run the menu pass
iff some category is unresolved after both earlier passes. -/
def menuGate (mainLinks footerLinks : ComplianceLinks) : Bool :=
  (mainLinks.termsLink.isNone && footerLinks.termsLink.isNone) ||
  (mainLinks.privacyLink.isNone && footerLinks.privacyLink.isNone) ||
  (mainLinks.cookieLink.isNone && footerLinks.cookieLink.isNone)

/-- The footer pass as executed by `scrapeWebsite` (lines 193-208):
`findFooterLinks` when the gate fires, otherwise the all-null record. -/
def footerPass (env : ScrapeEnv) : ComplianceLinks :=
  if footerGate (findComplianceLinks env.rootAnchors) then
    findFooterLinks env.footerAnchors
  else ⟨none, none, none⟩

/-- The menu pass as executed by `scrapeWebsite` (lines 198-215):
`findMenuLinks` when the gate fires, otherwise the all-null record. -/
def menuPass (env : ScrapeEnv) : ComplianceLinks :=
  if menuGate (findComplianceLinks env.rootAnchors) (footerPass env) then
    (findMenuLinks env.fetch env.rootAnchors).1
  else ⟨none, none, none⟩

/-- Link consolidation (scrapingService.ts lines 218-220): per category,
`mainLinks.x || footerLinks.x || menuLinks.x`. -/
def mergeLinks (mainLinks footerLinks menuLinks : ComplianceLinks) :
    ComplianceLinks :=
  ⟨jsOr mainLinks.termsLink (jsOr footerLinks.termsLink menuLinks.termsLink),
   jsOr mainLinks.privacyLink (jsOr footerLinks.privacyLink menuLinks.privacyLink),
   jsOr mainLinks.cookieLink (jsOr footerLinks.cookieLink menuLinks.cookieLink)⟩

/-- The link-discovery cascade of `scrapeWebsite` (lines 192-220). -/
def resolveLinks (env : ScrapeEnv) : ComplianceLinks :=
  mergeLinks (findComplianceLinks env.rootAnchors) (footerPass env) (menuPass env)

/-- The `termsOfService` document (lines 233-237): extracted iff a terms
link was resolved. -/
def extractTermsDoc (env : ScrapeEnv) : Option Link → Option Str
  | some tl => some (scrapePageWithOpenAI env tl.href "terms of service".data).1
  | none => none

/-- The extraction stage of `scrapeWebsite` (scrapingService.ts lines
228-267), given the consolidated links.  The `await`s and the 2s delays
between calls do not affect the computed values; the combined result is
computed once in the source and its two components reused. -/
def extractPhase (env : ScrapeEnv)
    (termsLink privacyLink cookieLink : Option Link) : ScrapingResult :=
  match privacyLink, cookieLink with
  | some pl, some cl =>
    if pl.href == cl.href then
      ⟨extractTermsDoc env termsLink,
       some ((scrapePageForMultiplePolicies env pl.href).1).1,
       some ((scrapePageForMultiplePolicies env pl.href).1).2⟩
    else
      ⟨extractTermsDoc env termsLink,
       some (scrapePageWithOpenAI env pl.href "privacy policy".data).1,
       some (scrapePageWithOpenAI env cl.href "cookie policy".data).1⟩
  | some pl, none =>
    ⟨extractTermsDoc env termsLink,
     some (scrapePageWithOpenAI env pl.href "privacy policy".data).1,
     if ((scrapePageWithOpenAI env pl.href "privacy policy".data).1).isEmpty then none
     else some (extractCookiePolicyFromPrivacyPolicy env
       (some (scrapePageWithOpenAI env pl.href "privacy policy".data).1))⟩
  | none, some cl =>
    ⟨extractTermsDoc env termsLink, none,
     some (scrapePageWithOpenAI env cl.href "cookie policy".data).1⟩
  | none, none => ⟨extractTermsDoc env termsLink, none, none⟩

/-- `scrapeWebsite` (scrapingService.ts lines 163-274) on a successfully
loaded root page: the discovery cascade followed by the extraction stage.
(The browser launch/install fallback and the rethrow of a root-page
navigation failure happen before resp. outside this modelled portion.) -/
def scrapeWebsite (env : ScrapeEnv) : ScrapingResult :=
  extractPhase env (resolveLinks env).termsLink (resolveLinks env).privacyLink
    (resolveLinks env).cookieLink

end ScrapingService

namespace OpenaiService

/-- The capped backoff of the duplicated `callOpenAIWithRetry` variant
(`src/unnamed/part_001` lines 71-78): `Math.min(Math.pow(2, retryCount) *
1000, 4000)`. -/
def backoffTime (retryCount : Nat) : Nat :=
  min (2 ^ retryCount * 1000) 4000

end OpenaiService

open ScrapingService

/-- A combined privacy-and-cookies footer anchor (concrete test input). -/
def combinedLinkW : Link :=
  ⟨"privacy & cookies".data, "https://example.com/privacy-cookies".data, true, false⟩

/-- A terms footer anchor (concrete test input). -/
def termsOnlyLinkW : Link :=
  ⟨"terms".data, "https://example.com/terms".data, true, false⟩

/-- Concrete anchor list for exercising the link classifier. -/
def linksW5 : List Link := [combinedLinkW, termsOnlyLinkW]

/-- The footer anchor of the end-to-end privacy-only scenario: visible text
"Privacy Policy" (lowercased by the DOM evaluation) and href `/privacy`
(made absolute by the browser). -/
def privacyFooterLinkW : Link :=
  ⟨"privacy policy".data, "https://example.com/privacy".data, true, false⟩

/-- Environment of the end-to-end privacy-only scenario: the root page's
only anchor is the footer privacy link, no terms or cookie links exist on
any page, and navigation and extraction succeed. -/
def envC1 : ScrapeEnv :=
  ⟨[privacyFooterLinkW], [privacyFooterLinkW], fun _ => none, true,
   fun _ => Except.ok "Some privacy page text".data,
   fun _ _ => Except.ok "PRIVACY CONTENT".data⟩

/-- Environment whose document navigation always times out. -/
def envC2 : ScrapeEnv :=
  ⟨[], [], fun _ => none, true,
   fun _ => Except.error "page.goto: Timeout 30000ms exceeded".data,
   fun _ _ => Except.error "boom".data⟩

/-- Environment where navigation succeeds but every extraction call fails
persistently. -/
def envW2 : ScrapeEnv :=
  ⟨[], [], fun _ => some [], true,
   fun _ => Except.ok "body text".data,
   fun _ _ => Except.error "rate_limit_exceeded persisted".data⟩

/-- Footer terms anchor for the cascade test. -/
def footerTermsLinkW : Link :=
  ⟨"terms".data, "https://example.com/legal-terms".data, true, false⟩

/-- Environment whose root page has no classifiable anchors but whose
footer holds a terms link. -/
def envW6 : ScrapeEnv :=
  ⟨[], [footerTermsLinkW], fun _ => none, true,
   fun _ => Except.ok [], fun _ _ => Except.ok []⟩

/-- A secondary-page anchor satisfying all three menu predicates. -/
def subLinkW7 : Link :=
  ⟨"terms conditions privacy cookie".data, "https://example.com/legal".data, false, false⟩

/-- Four about-page candidates (more than the visiting limit). -/
def anchorsW7 : List Link :=
  [⟨"about one".data, "https://example.com/a1".data, false, false⟩,
   ⟨"about two".data, "https://example.com/a2".data, false, false⟩,
   ⟨"about three".data, "https://example.com/a3".data, false, false⟩,
   ⟨"about four".data, "https://example.com/a4".data, false, false⟩]

/-- Secondary-page fetch that resolves all three categories at once. -/
def fetchW7 : Str → Option (List Link) := fun _ => some [subLinkW7]

/-- Environment where navigation succeeds and the extraction service
reports a persistent rate-limit failure. -/
def envW8 : ScrapeEnv :=
  ⟨[], [], fun _ => none, true,
   fun _ => Except.ok "page".data,
   fun _ _ => Except.error "Request failed with status code 429".data⟩

/-- A root-page terms anchor. -/
def termsLinkW10 : Link :=
  ⟨"terms of service".data, "https://example.com/terms".data, false, false⟩

/-- Environment whose root page carries only a terms link. -/
def envW10 : ScrapeEnv :=
  ⟨[termsLinkW10], [], fun _ => none, true,
   fun _ => Except.ok "terms text".data, fun _ _ => Except.ok "TERMS".data⟩

/-- The classifier record projects, per category, to `List.find?` with that
category's keyword predicate. -/
theorem findComplianceLinks_slot (links : List Link) (c : Category) :
    (findComplianceLinks links).slot c = links.find? (catMatch c) := by
  cases c <;> rfl

/-- The consolidation of the three passes, per category, is the
first-non-null choice. -/
theorem mergeLinks_slot (a b m : ComplianceLinks) (c : Category) :
    (mergeLinks a b m).slot c = jsOr (a.slot c) (jsOr (b.slot c) (m.slot c)) := by
  cases c <;> rfl

/-- An unresolved category after the main pass fires the footer gate. -/
theorem footerGate_of_none (c : Category) {m : ComplianceLinks}
    (h : m.slot c = none) : footerGate m = true := by
  cases c <;> simp_all [footerGate, ComplianceLinks.slot]

/-- A category unresolved after both earlier passes fires the menu gate. -/
theorem menuGate_of_none (c : Category) {m f : ComplianceLinks}
    (hm : m.slot c = none) (hf : f.slot c = none) : menuGate m f = true := by
  cases c <;> simp_all [menuGate, ComplianceLinks.slot]

/-- C3 counterexample: in `callOpenAIWithRetry` of
`src/services/scrapingService.ts` the computed backoff for retry attempt
k = 3 is `2^3 * 1000 = 8000` ms, not the claimed `min(2^3 * 1000, 4000) =
4000` ms — that file's backoff is uncapped (the cap exists only in the
duplicated `openaiService` variant). -/
theorem C3_counterexample :
    ScrapingService.backoffTime 3 none ≠ min (2 ^ 3 * 1000) 4000 := by decide

/-- C3 (amended): the `openaiService` variant of `callOpenAIWithRetry`
computes backoff `min(2^k * 1000, 4000)` ms for every retry attempt k (in
particular 2000, 4000, 4000, 4000 for k = 1..4), while the
`scrapingService.ts` variant computes the uncapped `2^k * 1000` ms for a
non-token rate limit (2000, 4000, 8000, 16000 for k = 1..4), which agrees
with the claimed formula only for k ≤ 2. -/
theorem C3_backoff_values :
    (∀ k, OpenaiService.backoffTime k = min (2 ^ k * 1000) 4000) ∧
    (OpenaiService.backoffTime 1 = 2000 ∧ OpenaiService.backoffTime 2 = 4000 ∧
     OpenaiService.backoffTime 3 = 4000 ∧ OpenaiService.backoffTime 4 = 4000) ∧
    (∀ k, ScrapingService.backoffTime k none = 2 ^ k * 1000) ∧
    (ScrapingService.backoffTime 1 none = 2000 ∧
     ScrapingService.backoffTime 2 none = 4000 ∧
     ScrapingService.backoffTime 3 none = 8000 ∧
     ScrapingService.backoffTime 4 none = 16000) :=
  ⟨fun _ => rfl, by decide, fun _ => rfl, by decide⟩

/-- C9: text longer than the 80,000-character cap is truncated to the
80,000-character prefix plus the fixed marker "...[truncated]" (so the
output length is the cap plus the marker length); text at or below the cap
is returned unchanged. -/
theorem C9_truncation (content : Str) :
    (content.length > 80000 →
      (truncateContent content).length = 80000 + truncationMarker.length ∧
      truncateContent content = content.take 80000 ++ truncationMarker ∧
      truncationMarker = "...[truncated]".data) ∧
    (content.length ≤ 80000 → truncateContent content = content) := by
  constructor
  · intro h
    have hm : truncationMarker.length = 14 := rfl
    have ht : truncateContent content = content.take 80000 ++ truncationMarker := by
      simp [truncateContent, h, truncationMarker]
    refine ⟨?_, ht, rfl⟩
    rw [ht, List.length_append, List.length_take, hm]
    omega
  · intro h
    simp [truncateContent, Nat.not_lt.mpr h]

/-- C9 witness: a concrete 80,001-character input is over the cap and its
truncation has length 80,000 plus the marker length. -/
theorem C9_truncation_witness :
    (List.replicate 80001 'x').length > 80000 ∧
    (truncateContent (List.replicate 80001 'x')).length =
      80000 + truncationMarker.length :=
  ⟨by rw [List.length_replicate]; omega,
   ((C9_truncation (List.replicate 80001 'x')).1
     (by rw [List.length_replicate]; omega)).1⟩

/-- C4: the combined-policy splitter's marker parse: the well-ordered
synthetic input round-trips to privacy="P", cookie="C"; a privacy-only
input leaves the cookie at the not-found sentinel; and with the markers in
reversed order the text between the first marker and the next becomes that
marker's document while the text after the last marker goes to the
category whose marker appears last. -/
theorem C4_splitter :
    splitPolicies "PRIVACY POLICY:\nP\nCOOKIE POLICY:\nC".data =
      ("P".data, "C".data) ∧
    splitPolicies "PRIVACY POLICY:\nP".data = ("P".data, defaultCookie) ∧
    (∀ content privacyStart cookieStart,
      indexOfL content privacyMarker = some privacyStart →
      indexOfL content cookieMarker = some cookieStart →
      cookieStart + cookieMarker.length ≤ privacyStart →
      splitPolicies content =
        (trimL (content.drop (privacyStart + privacyMarker.length)),
         trimL ((content.drop (cookieStart + cookieMarker.length)).take
           (privacyStart - (cookieStart + cookieMarker.length))))) := by
  refine ⟨by decide, by decide, ?_⟩
  intro content p c hp hc hle
  have h14 : cookieMarker.length = 14 := rfl
  have hcp : c < p := by omega
  have hnpc : ¬ p < c := by omega
  simp only [splitPolicies, hp, hc, if_neg hnpc, if_pos hcp]
  rw [jsSubstring, Nat.min_eq_left hle, Nat.max_eq_right hle]

/-- C4 witness: the reversed-order rule applied at the concrete input with
the cookie marker first. -/
theorem C4_splitter_witness :
    indexOfL "COOKIE POLICY:\nC\nPRIVACY POLICY:\nP".data privacyMarker = some 17 ∧
    indexOfL "COOKIE POLICY:\nC\nPRIVACY POLICY:\nP".data cookieMarker = some 0 ∧
    splitPolicies "COOKIE POLICY:\nC\nPRIVACY POLICY:\nP".data =
      (trimL ("COOKIE POLICY:\nC\nPRIVACY POLICY:\nP".data.drop
        (17 + privacyMarker.length)),
       trimL (("COOKIE POLICY:\nC\nPRIVACY POLICY:\nP".data.drop
         (0 + cookieMarker.length)).take (17 - (0 + cookieMarker.length)))) :=
  ⟨by decide, by decide,
   C4_splitter.2.2 "COOKIE POLICY:\nC\nPRIVACY POLICY:\nP".data 17 0
     (by decide) (by decide) (by decide)⟩

/-- C5: for every anchor list and category, the classifier returns at most
one match (an `Option`), a returned match is the first anchor in list
order satisfying that category's keyword predicate, `none` is returned
exactly when no anchor satisfies it, and the first satisfying anchor is
returned for each category it satisfies (so one anchor can fill several
slots). -/
theorem C5_link_classifier (links : List Link) (c : Category) :
    (∀ l, (findComplianceLinks links).slot c = some l →
      catMatch c l = true ∧
      ∃ l₁ l₂, links = l₁ ++ l :: l₂ ∧ ∀ x ∈ l₁, catMatch c x = false) ∧
    ((findComplianceLinks links).slot c = none ↔
      ∀ l ∈ links, catMatch c l = false) ∧
    (∀ l₁ l l₂, links = l₁ ++ l :: l₂ → catMatch c l = true →
      (∀ x ∈ l₁, catMatch c x = false) →
      (findComplianceLinks links).slot c = some l) := by
  rw [findComplianceLinks_slot]
  refine ⟨?_, ?_, ?_⟩
  · intro l h
    obtain ⟨hp, as, bs, hsplit, hall⟩ := List.find?_eq_some.mp h
    exact ⟨hp, as, bs, hsplit, fun x hx => by simpa using hall x hx⟩
  · rw [List.find?_eq_none]
    constructor
    · intro h l hl
      simpa using h l hl
    · intro h l hl
      simp [h l hl]
  · intro l₁ l l₂ hsplit hl hall
    exact List.find?_eq_some.mpr ⟨hl, l₁, l₂, hsplit, fun x hx => by simp [hall x hx]⟩

/-- The visiting loop never opens more pages than there are candidates. -/
theorem menuVisit_length_le (fetch : Str → Option (List Link)) :
    ∀ (cands : List Link) (s : MenuState),
      ((menuVisit fetch cands s).1).length ≤ cands.length := by
  intro cands
  induction cands with
  | nil => intro s; simp [menuVisit]
  | cons l rest ih =>
    intro s
    rcases hf : fetch l.href with _ | subLinks
    · simpa [menuVisit, hf] using Nat.succ_le_succ (ih s)
    · by_cases hres : allResolved (menuUpdate s subLinks) = true
      · simp [menuVisit, hf, hres]
      · simp only [menuVisit, hf, Bool.not_eq_true] at hres ⊢
        simpa [hres] using Nat.succ_le_succ (ih (menuUpdate s subLinks))

/-- The visited hrefs are an order-preserving prefix of the candidates'
hrefs. -/
theorem menuVisit_visited_prefix (fetch : Str → Option (List Link)) :
    ∀ (cands : List Link) (s : MenuState),
      (menuVisit fetch cands s).1 =
        (cands.map Link.href).take ((menuVisit fetch cands s).1).length := by
  intro cands
  induction cands with
  | nil => intro s; simp [menuVisit]
  | cons l rest ih =>
    intro s
    rcases hf : fetch l.href with _ | subLinks
    · simp only [menuVisit, hf, List.map_cons, List.length_cons, List.take_succ_cons]
      rw [← ih s]
    · by_cases hres : allResolved (menuUpdate s subLinks) = true
      · simp [menuVisit, hf, hres]
      · simp only [Bool.not_eq_true] at hres
        simp only [menuVisit, hf, hres, Bool.false_eq_true, if_false, List.map_cons,
          List.length_cons, List.take_succ_cons]
        rw [← ih (menuUpdate s subLinks)]

/-- The loop's final state is the no-break scan of exactly the visited
candidates. -/
theorem menuVisit_state_eq_scan (fetch : Str → Option (List Link)) :
    ∀ (cands : List Link) (s : MenuState),
      (menuVisit fetch cands s).2 =
        menuScan fetch (cands.take ((menuVisit fetch cands s).1).length) s := by
  intro cands
  induction cands with
  | nil => intro s; simp [menuVisit, menuScan]
  | cons l rest ih =>
    intro s
    rcases hf : fetch l.href with _ | subLinks
    · simp only [menuVisit, hf, List.length_cons, List.take_succ_cons, menuScan]
      exact ih s
    · by_cases hres : allResolved (menuUpdate s subLinks) = true
      · simp [menuVisit, hf, hres, menuScan]
      · simp only [Bool.not_eq_true] at hres
        simp only [menuVisit, hf, hres, Bool.false_eq_true, if_false, List.length_cons,
          List.take_succ_cons, menuScan]
        exact ih (menuUpdate s subLinks)

/-- If the loop left candidates unvisited, it did so because all three
categories were resolved. -/
theorem menuVisit_early_stop (fetch : Str → Option (List Link)) :
    ∀ (cands : List Link) (s : MenuState),
      ((menuVisit fetch cands s).1).length < cands.length →
      allResolved ((menuVisit fetch cands s).2) = true := by
  intro cands
  induction cands with
  | nil => intro s h; simp [menuVisit] at h
  | cons l rest ih =>
    intro s h
    rcases hf : fetch l.href with _ | subLinks
    · simp only [menuVisit, hf, List.length_cons] at h ⊢
      exact ih s (by omega)
    · by_cases hres : allResolved (menuUpdate s subLinks) = true
      · simp [menuVisit, hf, hres]
      · simp only [Bool.not_eq_true] at hres
        simp only [menuVisit, hf, hres, Bool.false_eq_true, if_false,
          List.length_cons] at h ⊢
        exact ih (menuUpdate s subLinks) (by omega)

/-- The loop stops at the first resolution point: before the visit that
resolved everything, every shorter scan is still unresolved. -/
theorem menuVisit_minimal (fetch : Str → Option (List Link)) :
    ∀ (cands : List Link) (s : MenuState), allResolved s = false →
      ∀ k, k < ((menuVisit fetch cands s).1).length →
      allResolved (menuScan fetch (cands.take k) s) = false := by
  intro cands
  induction cands with
  | nil => intro s hs k hk; simp [menuVisit] at hk
  | cons l rest ih =>
    intro s hs k hk
    rcases hf : fetch l.href with _ | subLinks
    · simp only [menuVisit, hf, List.length_cons] at hk
      cases k with
      | zero => simpa [menuScan] using hs
      | succ j =>
        simp only [List.take_succ_cons, menuScan, hf]
        exact ih s hs j (by omega)
    · by_cases hres : allResolved (menuUpdate s subLinks) = true
      · simp only [menuVisit, hf, hres, if_true, List.length_cons] at hk
        cases k with
        | zero => simpa [menuScan] using hs
        | succ j => simp at hk
      · simp only [Bool.not_eq_true] at hres
        simp only [menuVisit, hf, hres, Bool.false_eq_true, if_false,
          List.length_cons] at hk
        cases k with
        | zero => simpa [menuScan] using hs
        | succ j =>
          simp only [List.take_succ_cons, menuScan, hf]
          exact ih (menuUpdate s subLinks) hres j (by omega)

/-- C7: the menu pass visits at most the first three candidate pages, in
list order (the visited hrefs are a prefix of the first three candidates'
hrefs); whenever it leaves a candidate unvisited all three categories are
resolved; and it never visits past the first point at which all three
become resolved. -/
theorem C7_menu_pass_visits (fetch : Str → Option (List Link)) (anchors : List Link) :
    ((findMenuLinks fetch anchors).2).length ≤ 3 ∧
    (findMenuLinks fetch anchors).2 =
      (((anchors.filter menuTextMatch).take 3).map Link.href).take
        ((findMenuLinks fetch anchors).2).length ∧
    (((findMenuLinks fetch anchors).2).length <
        ((anchors.filter menuTextMatch).take 3).length →
      allResolved (menuScan fetch
        (((anchors.filter menuTextMatch).take 3).take
          ((findMenuLinks fetch anchors).2).length) (none, none, none)) = true) ∧
    (∀ k, k < ((findMenuLinks fetch anchors).2).length →
      allResolved (menuScan fetch (((anchors.filter menuTextMatch).take 3).take k)
        (none, none, none)) = false) := by
  have hv : (findMenuLinks fetch anchors).2 =
      (menuVisit fetch ((anchors.filter menuTextMatch).take 3) (none, none, none)).1 := rfl
  have hst : ∀ k, allResolved (menuScan fetch
      (((anchors.filter menuTextMatch).take 3).take k) (none, none, none)) =
      allResolved (menuScan fetch (((anchors.filter menuTextMatch).take 3).take k)
        (none, none, none)) := fun _ => rfl
  refine ⟨?_, ?_, ?_, ?_⟩
  · rw [hv]
    calc ((menuVisit fetch ((anchors.filter menuTextMatch).take 3)
          (none, none, none)).1).length
        ≤ ((anchors.filter menuTextMatch).take 3).length :=
          menuVisit_length_le fetch _ _
      _ ≤ 3 := by rw [List.length_take]; omega
  · rw [hv]
    exact menuVisit_visited_prefix fetch _ _
  · rw [hv]
    intro h
    have := menuVisit_early_stop fetch ((anchors.filter menuTextMatch).take 3)
      (none, none, none) h
    rw [menuVisit_state_eq_scan] at this
    exact this
  · rw [hv]
    intro k hk
    exact menuVisit_minimal fetch _ (none, none, none) rfl k hk

/-- C7 witness: with four about-page candidates and a first visit that
resolves all three categories, exactly one page is visited although two
more candidates remain, and the empty scan before it is unresolved. -/
theorem C7_menu_pass_visits_witness :
    ((findMenuLinks fetchW7 anchorsW7).2).length <
      ((anchorsW7.filter menuTextMatch).take 3).length ∧
    allResolved (menuScan fetchW7
      (((anchorsW7.filter menuTextMatch).take 3).take
        ((findMenuLinks fetchW7 anchorsW7).2).length) (none, none, none)) = true ∧
    allResolved (menuScan fetchW7 (((anchorsW7.filter menuTextMatch).take 3).take 0)
      (none, none, none)) = false :=
  ⟨by decide,
   (C7_menu_pass_visits fetchW7 anchorsW7).2.2.1 (by decide),
   (C7_menu_pass_visits fetchW7 anchorsW7).2.2.2 0 (by decide)⟩

/-- C6: per category, the cascade's consolidated link is the main-page
match when present (a category resolved by an earlier pass is never
overwritten); otherwise the footer-pass match when present; otherwise
exactly the menu-pass match (absent when that is also absent). -/
theorem C6_cascade_priority (env : ScrapeEnv) (c : Category) :
    (∀ l, (findComplianceLinks env.rootAnchors).slot c = some l →
      (resolveLinks env).slot c = some l) ∧
    ((findComplianceLinks env.rootAnchors).slot c = none →
      ∀ l, (findFooterLinks env.footerAnchors).slot c = some l →
        (resolveLinks env).slot c = some l) ∧
    ((findComplianceLinks env.rootAnchors).slot c = none →
      (findFooterLinks env.footerAnchors).slot c = none →
      (resolveLinks env).slot c =
        ((findMenuLinks env.fetch env.rootAnchors).1).slot c) := by
  refine ⟨?_, ?_, ?_⟩
  · intro l h
    rw [resolveLinks, mergeLinks_slot, h]
    rfl
  · intro hm l hf
    have hfp : footerPass env = findFooterLinks env.footerAnchors := by
      rw [footerPass, if_pos (footerGate_of_none c hm)]
    rw [resolveLinks, mergeLinks_slot, hm, hfp, hf]
    rfl
  · intro hm hf
    have hfp : footerPass env = findFooterLinks env.footerAnchors := by
      rw [footerPass, if_pos (footerGate_of_none c hm)]
    have hmp : menuPass env = (findMenuLinks env.fetch env.rootAnchors).1 := by
      rw [menuPass, if_pos (menuGate_of_none c hm (by rw [hfp]; exact hf))]
    rw [resolveLinks, mergeLinks_slot, hm, hfp, hf, hmp]
    rfl

/-- C6 witness: with an empty root page and a footer terms link, the
cascade resolves terms from the footer pass. -/
theorem C6_cascade_priority_witness :
    (findComplianceLinks envW6.rootAnchors).slot Category.terms = none ∧
    (findFooterLinks envW6.footerAnchors).slot Category.terms = some footerTermsLinkW ∧
    (resolveLinks envW6).slot Category.terms = some footerTermsLinkW :=
  ⟨by decide, by decide,
   (C6_cascade_priority envW6 Category.terms).2.1 (by decide) footerTermsLinkW
     (by decide)⟩

/-- C5 witness: in a concrete list whose first anchor is a combined
"privacy & cookies" link, that single anchor fills both the privacy and
the cookie slot. -/
theorem C5_link_classifier_witness :
    catMatch Category.privacy combinedLinkW = true ∧
    catMatch Category.cookie combinedLinkW = true ∧
    (findComplianceLinks linksW5).slot Category.privacy = some combinedLinkW ∧
    (findComplianceLinks linksW5).slot Category.cookie = some combinedLinkW :=
  ⟨by decide, by decide,
   (C5_link_classifier linksW5 Category.privacy).2.2 [] combinedLinkW
     [termsOnlyLinkW] rfl (by decide) (by simp),
   (C5_link_classifier linksW5 Category.cookie).2.2 [] combinedLinkW
     [termsOnlyLinkW] rfl (by decide) (by simp)⟩

/-- The terms document of the extraction stage depends only on the terms
link. -/
theorem extractPhase_termsOfService (env : ScrapeEnv) (t p c : Option Link) :
    (extractPhase env t p c).termsOfService = extractTermsDoc env t := by
  cases p <;> cases c <;> simp only [extractPhase]
  split <;> rfl

/-- The privacy document of the extraction stage is null exactly when no
privacy link was resolved. -/
theorem extractPhase_privacyPolicy_none (env : ScrapeEnv) (t p c : Option Link) :
    ((extractPhase env t p c).privacyPolicy = none) ↔ p = none := by
  cases p with
  | none => cases c <;> simp [extractPhase]
  | some pl =>
    cases c with
    | none => simp [extractPhase]
    | some cl =>
      simp only [extractPhase]
      split <;> simp

/-- C2 counterexample: when navigation of the document page throws (here a
goto timeout), `scrapePageWithOpenAI` has opened a page but the `catch`
returns the failure string without closing it — the step does not close
every page it opened on this error path. -/
theorem C2_counterexample :
    ((scrapePageWithOpenAI envC2 "https://example.com/terms".data
        "terms of service".data).2).closed ≠
      ((scrapePageWithOpenAI envC2 "https://example.com/terms".data
        "terms of service".data).2).opened := by decide

/-- C2 (amended): on every path where navigation and DOM evaluation
succeed, `scrapePageWithOpenAI` and `scrapePageForMultiplePolicies` close
the page they opened before returning — including when the extraction call
throws, since `page.close()` precedes it; `findMenuLinks` closes every
successfully navigated secondary page.  But when navigation or evaluation
throws, the opened page is not closed (ledger 1 opened, 0 closed). -/
theorem C2_page_closing :
    (∀ (env : ScrapeEnv) (url documentType pageContent : Str),
      env.navContent url = Except.ok pageContent →
      ((scrapePageWithOpenAI env url documentType).2).closed =
        ((scrapePageWithOpenAI env url documentType).2).opened) ∧
    (∀ (env : ScrapeEnv) (url pageContent : Str),
      env.navContent url = Except.ok pageContent →
      ((scrapePageForMultiplePolicies env url).2).closed =
        ((scrapePageForMultiplePolicies env url).2).opened) ∧
    (∀ (fetch : Str → Option (List Link)) (anchors : List Link),
      (∀ u, (fetch u).isSome = true) →
      (menuLedger fetch anchors).closed = (menuLedger fetch anchors).opened) ∧
    (∀ (env : ScrapeEnv) (url documentType msg : Str),
      env.hasKey = true → env.navContent url = Except.error msg →
      (scrapePageWithOpenAI env url documentType).2 = ⟨1, 0⟩) ∧
    (∀ (env : ScrapeEnv) (url msg : Str),
      env.navContent url = Except.error msg →
      (scrapePageForMultiplePolicies env url).2 = ⟨1, 0⟩) := by
  refine ⟨?_, ?_, ?_, ?_, ?_⟩
  · intro env url documentType pageContent h
    cases hk : env.hasKey <;> simp [scrapePageWithOpenAI, hk, h]
  · intro env url pageContent h
    simp [scrapePageForMultiplePolicies, h]
  · intro fetch anchors hp
    simp [menuLedger, List.filter_eq_self.mpr (fun u _ => hp u)]
  · intro env url documentType msg hk h
    simp [scrapePageWithOpenAI, hk, h]
  · intro env url msg h
    simp [scrapePageForMultiplePolicies, h]

/-- C2 witness: with navigation succeeding and the extraction call failing
persistently, the step still balances its page ledger. -/
theorem C2_page_closing_witness :
    envW2.navContent "https://example.com/privacy".data =
      Except.ok "body text".data ∧
    ((scrapePageWithOpenAI envW2 "https://example.com/privacy".data
        "privacy policy".data).2).closed =
      ((scrapePageWithOpenAI envW2 "https://example.com/privacy".data
        "privacy policy".data).2).opened :=
  ⟨rfl, C2_page_closing.1 envW2 "https://example.com/privacy".data
    "privacy policy".data "body text".data rfl⟩

/-- C8: when the extraction call for a document throws (retries exhausted
or a non-rate-limit error), `scrapePageWithOpenAI` returns the
human-readable failure string embedding the error detail, and
`scrapePageForMultiplePolicies` returns the failure pair embedding it;
and each document's result field in the extraction stage is exactly its
own step's returned string, independent of the other documents' outcomes,
so one document's failure never aborts the others. -/
theorem C8_error_as_data :
    (∀ (env : ScrapeEnv) (url documentType pageContent msg : Str),
      env.hasKey = true →
      env.navContent url = Except.ok pageContent →
      env.llm (extractSystemPrompt documentType)
        (extractPrompt documentType url (truncateContent pageContent)) =
          Except.error msg →
      (scrapePageWithOpenAI env url documentType).1 =
        scrapeFailMsg documentType url msg) ∧
    (∀ (env : ScrapeEnv) (url pageContent msg : Str),
      env.navContent url = Except.ok pageContent →
      env.llm combinedSystemPrompt (combinedPrompt (truncateContent pageContent)) =
        Except.error msg →
      (scrapePageForMultiplePolicies env url).1 =
        (privacyFailMsg url msg, cookieFailMsg url msg)) ∧
    (∀ (env : ScrapeEnv) (tl : Link) (privacyLink cookieLink : Option Link),
      (extractPhase env (some tl) privacyLink cookieLink).termsOfService =
        some (scrapePageWithOpenAI env tl.href "terms of service".data).1) ∧
    (∀ (env : ScrapeEnv) (termsLink : Option Link) (pl : Link),
      (extractPhase env termsLink (some pl) none).privacyPolicy =
        some (scrapePageWithOpenAI env pl.href "privacy policy".data).1) ∧
    (∀ (env : ScrapeEnv) (termsLink : Option Link) (pl cl : Link),
      (pl.href == cl.href) = false →
      (extractPhase env termsLink (some pl) (some cl)).privacyPolicy =
        some (scrapePageWithOpenAI env pl.href "privacy policy".data).1) := by
  refine ⟨?_, ?_, ?_, ?_, ?_⟩
  · intro env url documentType pageContent msg hk hnav hllm
    simp [scrapePageWithOpenAI, hk, hnav, openAIBody, hllm]
  · intro env url pageContent msg hnav hllm
    simp [scrapePageForMultiplePolicies, hnav, multiPoliciesBody, hllm]
  · intro env tl privacyLink cookieLink
    rw [extractPhase_termsOfService]
    rfl
  · intro env termsLink pl
    rfl
  · intro env termsLink pl cl hne
    simp [extractPhase, hne]

/-- C8 witness: a persistent rate-limit failure of the extraction service
becomes the concrete failure strings. -/
theorem C8_error_as_data_witness :
    (scrapePageWithOpenAI envW8 "https://example.com/privacy".data
        "privacy policy".data).1 =
      scrapeFailMsg "privacy policy".data "https://example.com/privacy".data
        "Request failed with status code 429".data ∧
    (scrapePageForMultiplePolicies envW8 "https://example.com/privacy".data).1 =
      (privacyFailMsg "https://example.com/privacy".data
        "Request failed with status code 429".data,
       cookieFailMsg "https://example.com/privacy".data
        "Request failed with status code 429".data) :=
  ⟨C8_error_as_data.1 envW8 "https://example.com/privacy".data
    "privacy policy".data "page".data "Request failed with status code 429".data
    rfl rfl rfl,
   C8_error_as_data.2.1 envW8 "https://example.com/privacy".data "page".data
    "Request failed with status code 429".data rfl rfl⟩

/-- C10 (implicit claim): in a normally returning run, `termsOfService` is
null exactly when no terms link was resolved and `privacyPolicy` is null
exactly when no privacy link was resolved; a resolved link always yields a
non-null string for its field (a failure-describing string when extraction
fails), so null means "link not found", never "extraction failed". -/
theorem C10_null_iff_unresolved (env : ScrapeEnv) :
    ((scrapeWebsite env).termsOfService = none ↔
      (resolveLinks env).termsLink = none) ∧
    ((scrapeWebsite env).privacyPolicy = none ↔
      (resolveLinks env).privacyLink = none) ∧
    (∀ l, (resolveLinks env).termsLink = some l →
      (scrapeWebsite env).termsOfService =
        some (scrapePageWithOpenAI env l.href "terms of service".data).1) ∧
    (∀ l, (resolveLinks env).privacyLink = some l →
      ∃ s, (scrapeWebsite env).privacyPolicy = some s) := by
  have h1 : scrapeWebsite env =
      extractPhase env (resolveLinks env).termsLink (resolveLinks env).privacyLink
        (resolveLinks env).cookieLink := rfl
  refine ⟨?_, ?_, ?_, ?_⟩
  · rw [h1, extractPhase_termsOfService]
    cases htl : (resolveLinks env).termsLink <;> simp [extractTermsDoc]
  · rw [h1, extractPhase_privacyPolicy_none]
  · intro l hl
    rw [h1, extractPhase_termsOfService, hl]
    rfl
  · intro l hl
    rw [h1, hl]
    rcases hc : (resolveLinks env).cookieLink with _ | cl
    · exact ⟨_, rfl⟩
    · simp only [extractPhase]
      split
      · exact ⟨_, rfl⟩
      · exact ⟨_, rfl⟩

/-- C10 witness: with a resolved terms link, the result's terms field is
exactly that page's extraction string. -/
theorem C10_null_iff_unresolved_witness :
    (resolveLinks envW10).termsLink = some termsLinkW10 ∧
    (scrapeWebsite envW10).termsOfService =
      some (scrapePageWithOpenAI envW10 termsLinkW10.href
        "terms of service".data).1 :=
  ⟨by decide,
   (C10_null_iff_unresolved envW10).2.2.1 termsLinkW10 (by decide)⟩

/-- The visiting loop resolves neither terms nor cookie when no visited
secondary page offers a matching anchor. -/
theorem menuVisit_keeps_none (fetch : Str → Option (List Link))
    (hsub : ∀ u ls, fetch u = some ls →
      ls.find? menuTermsMatch = none ∧ ls.find? menuCookieMatch = none) :
    ∀ (cands : List Link) (s : MenuState), s.1 = none → s.2.2 = none →
      ((menuVisit fetch cands s).2).1 = none ∧
      ((menuVisit fetch cands s).2).2.2 = none := by
  intro cands
  induction cands with
  | nil =>
    intro s h1 h2
    simpa [menuVisit] using ⟨h1, h2⟩
  | cons l rest ih =>
    intro s h1 h2
    rcases hf : fetch l.href with _ | subLinks
    · simpa [menuVisit, hf] using ih s h1 h2
    · have hupd1 : (menuUpdate s subLinks).1 = none := by
        simp [menuUpdate, h1, (hsub _ _ hf).1]
      have hupd2 : (menuUpdate s subLinks).2.2 = none := by
        simp [menuUpdate, h2, (hsub _ _ hf).2]
      have hres : allResolved (menuUpdate s subLinks) = false := by
        simp [allResolved, hupd1]
      simp only [menuVisit, hf, hres, Bool.false_eq_true, if_false]
      exact ih (menuUpdate s subLinks) hupd1 hupd2

/-- C1 counterexample: in the claimed scenario (root page whose only
anchor is the footer privacy link, no terms or cookie links anywhere, all
services reachable) `scrapeWebsite` returns `cookiePolicy` as a non-null
string derived from the privacy policy — not null as claimed — because
with no dedicated cookie link it falls back to
`extractCookiePolicyFromPrivacyPolicy` (scrapingService.ts lines 256-260). -/
theorem C1_counterexample :
    (scrapeWebsite envC1).termsOfService = none ∧
    (scrapeWebsite envC1).privacyPolicy = some ("PRIVACY CONTENT".data) ∧
    (scrapeWebsite envC1).cookiePolicy = some ("PRIVACY CONTENT".data) := by
  decide

/-- C1 (amended): in the privacy-only scenario, `termsOfService` is null
and `privacyPolicy` is the (non-null) extraction string for the resolved
privacy link; but `cookiePolicy` is not null: it is the string produced by
extracting cookie sections from the privacy policy (null only in the edge
case where the privacy extraction returned the empty string). -/
theorem C1_privacy_only_scenario (env : ScrapeEnv) (pl : Link)
    (hrt : ∀ l ∈ env.rootAnchors, termsMatch l = false)
    (hrc : ∀ l ∈ env.rootAnchors, cookieMatch l = false)
    (hrp : env.rootAnchors.find? privacyMatch = some pl)
    (hft : ∀ l ∈ env.footerAnchors, footerTermsMatch l = false)
    (hfc : ∀ l ∈ env.footerAnchors, footerCookieMatch l = false)
    (hsub : ∀ u ls, env.fetch u = some ls →
      ls.find? menuTermsMatch = none ∧ ls.find? menuCookieMatch = none) :
    (scrapeWebsite env).termsOfService = none ∧
    (scrapeWebsite env).privacyPolicy =
      some (scrapePageWithOpenAI env pl.href "privacy policy".data).1 ∧
    (scrapeWebsite env).cookiePolicy =
      (if ((scrapePageWithOpenAI env pl.href "privacy policy".data).1).isEmpty
       then none
       else some (extractCookiePolicyFromPrivacyPolicy env
         (some (scrapePageWithOpenAI env pl.href "privacy policy".data).1))) := by
  have hmt : (findComplianceLinks env.rootAnchors).termsLink = none :=
    List.find?_eq_none.mpr (fun x hx => by simp [hrt x hx])
  have hmc : (findComplianceLinks env.rootAnchors).cookieLink = none :=
    List.find?_eq_none.mpr (fun x hx => by simp [hrc x hx])
  have hfp : footerPass env = findFooterLinks env.footerAnchors := by
    rw [footerPass, if_pos (footerGate_of_none Category.terms hmt)]
  have hfpt : (footerPass env).termsLink = none := by
    rw [hfp]
    exact List.find?_eq_none.mpr (fun x hx => by simp [hft x hx])
  have hfpc : (footerPass env).cookieLink = none := by
    rw [hfp]
    exact List.find?_eq_none.mpr (fun x hx => by simp [hfc x hx])
  have hmpass : menuPass env = (findMenuLinks env.fetch env.rootAnchors).1 := by
    rw [menuPass, if_pos (menuGate_of_none Category.terms hmt hfpt)]
  have hmenu := menuVisit_keeps_none env.fetch hsub
    ((env.rootAnchors.filter menuTextMatch).take 3) (none, none, none) rfl rfl
  have hmpt : (menuPass env).termsLink = none := by
    rw [hmpass]
    exact hmenu.1
  have hmpc : (menuPass env).cookieLink = none := by
    rw [hmpass]
    exact hmenu.2
  have hres : resolveLinks env = ⟨none, some pl, none⟩ := by
    rw [resolveLinks, mergeLinks]
    have hmp : (findComplianceLinks env.rootAnchors).privacyLink = some pl := hrp
    rw [hmt, hmc, hmp, hfpt, hfpc, hmpt, hmpc]
    rfl
  rw [scrapeWebsite, hres]
  exact ⟨rfl, rfl, rfl⟩

/-- C1 witness: the amended statement evaluated on the concrete
privacy-only environment. -/
theorem C1_privacy_only_scenario_witness :
    envC1.rootAnchors.find? privacyMatch = some privacyFooterLinkW ∧
    ((scrapeWebsite envC1).termsOfService = none ∧
     (scrapeWebsite envC1).privacyPolicy =
       some (scrapePageWithOpenAI envC1 privacyFooterLinkW.href
         "privacy policy".data).1 ∧
     (scrapeWebsite envC1).cookiePolicy =
       (if ((scrapePageWithOpenAI envC1 privacyFooterLinkW.href
            "privacy policy".data).1).isEmpty
        then none
        else some (extractCookiePolicyFromPrivacyPolicy envC1
          (some (scrapePageWithOpenAI envC1 privacyFooterLinkW.href
            "privacy policy".data).1)))) :=
  ⟨by decide,
   C1_privacy_only_scenario envC1 privacyFooterLinkW (by decide) (by decide)
     (by decide) (by decide) (by decide) (fun u ls h => nomatch h)⟩
